import Mathlib

/-!
Shallow embedding of the retry/rotation/context-budget wrapper
(`src/autogen_agent/gemini_retry_wrapper.py`) and of the Discord bot's
request-serialization and recovery layer
(`src/autogen_agent/autogen_discord_bot.py`), together with theorems
settling the spec claims about them.

Conventions of the embedding:
* Python strings are `String`; the `in` substring test is `strContains`.
* Token counts produced by the tiktoken tokenizer are abstracted as data:
  each message carries `tok`, the total encoded length of its string
  values, since the tokenizer itself is an external library.
* Wall-clock time, the random jitter and the outcome of each remote
  dispatch are inputs: a call to `create` consumes a script, one
  `StepInput` per iteration of its retry loop.
* Machine floats for delays/timestamps are modelled as rationals.
-/

namespace WebfgAgent

/- Let concrete rational arithmetic evaluate inside `decide`. -/
attribute [local semireducible] Rat.mul Rat.add Rat.sub Rat.inv

/-- Contiguous-sublist test on lists (executable infix check). -/
def listInfixOf (p : List Char) : List Char → Bool
  | [] => p.isEmpty
  | c :: cs => p.isPrefixOf (c :: cs) || listInfixOf p cs

/-- Python's `pat in s` substring test. -/
def strContains (s pat : String) : Bool :=
  listInfixOf pat.toList s.toList

/-- Python regex `\s` (ASCII): space, tab, newline, carriage return,
vertical tab, form feed. -/
def isWSChar (c : Char) : Bool :=
  c = ' ' || c = '\t' || c = '\n' || c = '\r' || c = '\x0b' || c = '\x0c'

/-- Skip a `\s*` prefix. -/
def skipWS : List Char → List Char
  | [] => []
  | c :: cs => if isWSChar c then skipWS cs else c :: cs

/-- Longest `\d*` prefix, together with the rest of the input. -/
def takeDigits : List Char → List Char × List Char
  | [] => ([], [])
  | c :: cs =>
    if c.isDigit then
      let p := takeDigits cs
      (c :: p.1, p.2)
    else ([], c :: cs)

/-- Decimal value of a digit string (`int(m.group(1))`). -/
def digitsToNat (l : List Char) : Nat :=
  l.foldl (fun a c => a * 10 + (c.toNat - 48)) 0

/-- Case-insensitive literal match at the head of the input; returns the
rest of the input on success (regexes in the source use `re.I`). -/
def ciStrip : List Char → List Char → Option (List Char)
  | [], l => some l
  | _ :: _, [] => none
  | p :: ps, c :: cs => if p.toLower = c.toLower then ciStrip ps cs else none

/-- Attempt to match `retry_delay\s*{\s*seconds:\s*(\d+)` at this exact
position (the brace is written as an escape throughout). -/
def tryDelayAt (l : List Char) : Option Nat :=
  match ciStrip "retry_delay".toList l with
  | none => none
  | some r1 =>
    match skipWS r1 with
    | [] => none
    | c :: r2 =>
      if c = '\x7b' then
        match ciStrip "seconds:".toList (skipWS r2) with
        | none => none
        | some r3 =>
          let p := takeDigits (skipWS r3)
          if p.1 = [] then none else some (digitsToNat p.1)
      else none

/-- Model of `re.search`: try the pattern at each successive position. -/
def searchDelay : List Char → Option Nat
  | [] => none
  | c :: cs =>
    match tryDelayAt (c :: cs) with
    | some n => some n
    | none => searchDelay cs

/-- Function `_extract_retry_delay` (gemini_retry_wrapper.py lines 87-90): parse
Google's explicit `retry_delay { seconds: N` payload, if present. -/
def extractRetryDelay (msg : String) : Option Nat :=
  searchDelay msg.toList

/-- Classifier from `create` (lines 235-238): an error is HTTP-retriable
iff its text mentions 429, quota, or a 5xx code. -/
def isHttpRetriable (msg : String) : Bool :=
  strContains msg "429" || strContains msg "quota" ||
  strContains msg "500" || strContains msg "502" ||
  strContains msg "503" || strContains msg "504"

/-- Class attribute `MAX_TOTAL_SECONDS` (8 h wall-clock budget). -/
def MAX_TOTAL_SECONDS : ℚ := 8 * 60 * 60

/-- Class attribute `BASE_BACKOFF` (seconds). -/
def BASE_BACKOFF : ℚ := 1

/-- Class attribute `MAX_BACKOFF` (5 min cap, seconds). -/
def MAX_BACKOFF : ℚ := 300

/-- Class attribute `KEY_ROTATE_EVERY` (failures per key before rotating). -/
def KEY_ROTATE_EVERY : Nat := 3

/-- Module constant `MAX_TOTAL_TOKENS` (conservative context ceiling). -/
def MAX_TOTAL_TOKENS : Nat := 950000

/-- Delay computation for one retriable failure (`create` lines 248-252):
honour a server-specified delay when present, otherwise take the capped
exponential backoff times the sampled jitter and double the backoff.
Returns (delay slept, next backoff value). -/
def computeDelay (backoff jitter : ℚ) (msg : String) : ℚ × ℚ :=
  match extractRetryDelay msg with
  | some d => ((d : ℚ), backoff)
  | none => (min backoff MAX_BACKOFF * jitter, min (backoff * 2) MAX_BACKOFF)

/-- Round-robin advance of the shared key cycle (`itertools.cycle`):
if the key in use has index `i`, `next` yields index `(i+1) % n`. -/
def rotateKey (n i : Nat) : Nat :=
  (i + 1) % n

/-! ### Context pruning (`create` lines 150-195, `_estimate_tokens` lines 53-73) -/

/-- One chat message. `role` is the `"role"` entry; `tok` abstracts the
total tiktoken-encoded length of the message's string values (the
tokenizer is an external library, so its per-message output is data). -/
structure Msg where
  role : String
  tok : Nat
  deriving DecidableEq, Repr

/-- Function `_estimate_tokens`: 4 overhead tokens per message plus the encoded
length of its string values, plus 2 for the final assistant prompt. -/
def estimateTokens (messages : List Msg) : Nat :=
  messages.foldl (fun a m => a + 4 + m.tok) 0 + 2

/-- The `while` loop of the pruning block: while the estimate exceeds the
budget and more than `pruneStart + 1` messages remain, pop the message at
index `pruneStart` and re-estimate. -/
def pruneLoop (budget pruneStart : Nat) (messages : List Msg) : List Msg :=
  if _h : budget < estimateTokens messages ∧ pruneStart + 1 < messages.length then
    pruneLoop budget pruneStart (messages.eraseIdx pruneStart)
  else messages
termination_by messages.length
decreasing_by
  rw [List.length_eraseIdx]
  split <;> omega

/-- Value `prune_start_index` (lines 160-161): 1 when the first message has
role `"system"`, 0 otherwise; computed once, before the loop. -/
def pruneStartIdx : List Msg → Nat
  | [] => 0
  | m0 :: _ => if m0.role = "system" then 1 else 0

/-- The pruning block of `create`: an empty (or absent) message list is
left alone; otherwise the loop runs from the fixed start index. -/
def pruneMessages (budget : Nat) (messages : List Msg) : List Msg :=
  match messages with
  | [] => messages
  | _ :: _ => pruneLoop budget (pruneStartIdx messages) messages

/-! ### The retry loop of `GeminiRetryWrapper.create` (lines 198-265) -/

/-- Result of one underlying `super().create(params)` dispatch. -/
inductive Outcome where
  | success (v : Nat)
  | indexErr (msg : String)
  | excErr (msg : String)
  deriving DecidableEq, Repr

/-- Environment consumed by one iteration of the retry loop: the elapsed
wall-clock time `time.time() - start` observed at the top of the loop,
the dispatch outcome if a dispatch is made, and the jitter sample
`random.uniform(1.0, 1.3)`. -/
structure StepInput where
  elapsed : ℚ
  outcome : Outcome
  jitter : ℚ
  deriving DecidableEq, Repr

/-- Mutable loop state of `create`: `attempt`, `backoff`,
`failures_on_key`, and the index of the key currently in use. -/
structure CreateState where
  attempt : Nat
  backoff : ℚ
  failuresOnKey : Nat
  keyIdx : Nat
  deriving DecidableEq, Repr

/-- State at loop entry (lines 145-148; the key cursor starts at the key
taken by `__init__`, index 0). -/
def initState : CreateState :=
  ⟨0, BASE_BACKOFF, 0, 0⟩

/-- What `create` does from the caller's point of view. -/
inductive Raised where
  | returned (v : Nat)
  | emptyApiResponseError
  | indexErrorRaised (msg : String)
  | raisedError (msg : String)
  | timeoutRaised
  | scriptEnded
  deriving DecidableEq, Repr

/-- Observable trace of a `create` run: its outcome, the number of
underlying dispatches, the sleeps performed, the key indices switched to
by rotations, and the final key index. -/
structure CreateOutcome where
  result : Raised
  dispatches : Nat
  delays : List ℚ
  keySwitches : List Nat
  finalKeyIdx : Nat
  deriving DecidableEq, Repr

/-- Bookkeeping for one retriable failure (lines 244-265): bump counters,
compute the sleep delay, and rotate the key when `failures_on_key`
reaches `KEY_ROTATE_EVERY` and the pool holds more than one key.
Returns (next state, delay slept, rotation events). -/
def retryUpdate (poolLen : Nat) (s : CreateState) (jitter : ℚ)
    (msg : String) : CreateState × ℚ × List Nat :=
  let fok := s.failuresOnKey + 1
  let p := computeDelay s.backoff jitter msg
  if KEY_ROTATE_EVERY ≤ fok ∧ 1 < poolLen then
    (⟨s.attempt + 1, p.2, 0, rotateKey poolLen s.keyIdx⟩, p.1,
      [rotateKey poolLen s.keyIdx])
  else
    (⟨s.attempt + 1, p.2, fok, s.keyIdx⟩, p.1, [])

/-- The `while True` retry loop of `create`, consuming one `StepInput`
per iteration. At the top of each iteration the wall-clock budget is
checked; then the dispatch outcome is handled exactly as in the source:
success returns; an `IndexError` mentioning "list index out of range"
raises `EmptyApiResponseError` and any other `IndexError` is re-raised;
any other exception is re-raised unless HTTP-retriable, in which case the
loop sleeps and possibly rotates the key, then iterates. -/
def createLoop (pool : List String) (s : CreateState) :
    List StepInput → CreateOutcome
  | [] => ⟨.scriptEnded, 0, [], [], s.keyIdx⟩
  | step :: rest =>
    if MAX_TOTAL_SECONDS < step.elapsed then
      ⟨.timeoutRaised, 0, [], [], s.keyIdx⟩
    else
      match step.outcome with
      | .success v => ⟨.returned v, 1, [], [], s.keyIdx⟩
      | .indexErr msg =>
        if strContains msg "list index out of range" then
          ⟨.emptyApiResponseError, 1, [], [], s.keyIdx⟩
        else
          ⟨.indexErrorRaised msg, 1, [], [], s.keyIdx⟩
      | .excErr msg =>
        if isHttpRetriable msg then
          let u := retryUpdate pool.length s step.jitter msg
          let r := createLoop pool u.1 rest
          ⟨r.result, r.dispatches + 1, u.2.1 :: r.delays,
            u.2.2 ++ r.keySwitches, r.finalKeyIdx⟩
        else
          ⟨.raisedError msg, 1, [], [], s.keyIdx⟩

/-! ### Discord bot layer (`autogen_discord_bot.py`) -/

/-- Module constant `MAX_RECOVERY_ATTEMPTS` (line 78): total attempts of
the bot's recovery loop. -/
def MAX_RECOVERY_ATTEMPTS : Nat := 3

/-- Attempt to match `input token count \(\d+\) exceeds` (with literal
parentheses, case-insensitive) at this exact position. The first regex of
line 503 strictly implies this one of line 504, so the disjunction of the
two searches is equivalent to searching this pattern alone. -/
def tryTokenLimitAt (l : List Char) : Bool :=
  match ciStrip "input token count (".toList l with
  | none => false
  | some r1 =>
    let p := takeDigits r1
    if p.1 = [] then false
    else (ciStrip ") exceeds".toList p.2).isSome

/-- Search over all positions for the token-limit pattern. -/
def searchTokenLimit : List Char → Bool
  | [] => false
  | c :: cs => tryTokenLimitAt (c :: cs) || searchTokenLimit cs

/-- Branch C guard of `_handle_request` (lines 503-504): does the error
text report Gemini's hard input-token limit? -/
def isTokenLimitError (msg : String) : Bool :=
  searchTokenLimit msg.toList

/-- Branch A guard (line 456): empty/invalid Gemini response. -/
def isEmptyResponseRecovery (msg : String) : Bool :=
  strContains msg "Google GenAI exception occurred" &&
  strContains msg "list index out of range"

/-- Branch B guard (line 468): invalid API key reported by Gemini. -/
def isBadKeyRecovery (msg : String) : Bool :=
  strContains msg "Google GenAI exception occurred" &&
  strContains msg "API key not valid"

/-- Process-wide configuration and shared mutable state seen by
`_handle_request`: the `USE_GEMINI` flag, the configured key list, the
key currently in `assistant.llm_config`, and the wrapper's
`MAX_TOTAL_TOKENS` budget that branch C tightens. -/
structure HandlerEnv where
  useGemini : Bool
  geminiKeys : List String
  currentApiKey : String
  maxTotalTokens : Nat
  deriving DecidableEq, Repr

/-- Result of one `initiate_chat` call inside the recovery loop. -/
inductive ChatOutcome where
  | ok
  | cancelled
  | runtimeErr (msg : String)
  | otherExc (msg : String)
  deriving DecidableEq, Repr

/-- Messages the handler can surface to the Discord channel, tagged. -/
inductive SentTag where
  | resultMsg
  | cancelNotice
  | allFailed
  | keyErrSingle
  | keyErrNoOthers
  | keyErrUnavailable
  | budgetModuleErr
  | tooLargeNonGemini
  | unhandledErr
  | internalErr
  | retryLogicFlaw
  deriving DecidableEq, Repr

/-- How `_handle_request` returns. -/
inductive HandlerExit where
  | completed
  | cancelledExit
  | failedMaxAttempts
  | failedUnhandled
  | failedInternal
  | loopExhausted
  | scriptEnded
  deriving DecidableEq, Repr

/-- Observable trace of a `_handle_request` run; `submitted` lists the
`current_content` passed to each `initiate_chat` call in order. -/
structure HandlerResult where
  exit : HandlerExit
  env : HandlerEnv
  sent : List SentTag
  chatCalls : Nat
  submitted : List String
  deriving DecidableEq, Repr

/-- Account for the `initiate_chat` call of the current iteration (and
the content it submitted) and the channel messages it sent, before the
loop continues. -/
def afterAttempt (current : String) (sentNow : List SentTag)
    (r : HandlerResult) : HandlerResult :=
  ⟨r.exit, r.env, sentNow ++ r.sent, r.chatCalls + 1, current :: r.submitted⟩

/-- Branch A recovery prompt (lines 459-464): asks the agent to retry the
original request after an empty-response API error (text abbreviated;
what matters below is that it differs from plain `original`). -/
def recoveryContentA (original : String) : String :=
  "The previous attempt failed due to an internal API error. Original request was: " ++ original

/-- Branch B recovery prompt (lines 489-493), likewise abbreviated. -/
def recoveryContentB (original : String) : String :=
  "The previous attempt failed due to an API key validation error. Original request was: " ++ original

/-- The `for attempt in range(1, MAX_RECOVERY_ATTEMPTS + 1)` recovery
loop of `_handle_request` (lines 419-545), one `ChatOutcome` consumed per
`initiate_chat` call. `picks` feeds `random.choice` in branch B (index
into the list of alternative keys). The `config_list` structure is
modelled as always present and well-formed, as the bot builds it at
startup. Success, cancellation and non-`RuntimeError` exceptions return
at once; a `RuntimeError` on the last allowed attempt fails permanently;
otherwise branches A/B may recover and continue, and anything
unrecovered falls through to the unhandled-error exit D. Branch C
(token-limit, lines 502-528) would tighten the wrapper budget at line
515, but the name `_grw` it reads at line 514 is never bound in the
module — its import is commented out at line 81 — so with Gemini in use
that line always raises `NameError`, caught at line 519: the handler
sends the internal budget-adjust notice, recovery is not flagged, and
control falls through to exit D. -/
def handleLoop (env : HandlerEnv) (original current : String) (attempt : Nat)
    (picks : List Nat) : List ChatOutcome → HandlerResult
  | [] =>
    if MAX_RECOVERY_ATTEMPTS < attempt then ⟨.loopExhausted, env, [.retryLogicFlaw], 0, []⟩
    else ⟨.scriptEnded, env, [], 0, []⟩
  | o :: rest =>
    if MAX_RECOVERY_ATTEMPTS < attempt then ⟨.loopExhausted, env, [.retryLogicFlaw], 0, []⟩
    else
      match o with
      | .ok => ⟨.completed, env, [.resultMsg], 1, [current]⟩
      | .cancelled => ⟨.cancelledExit, env, [.cancelNotice], 1, [current]⟩
      | .otherExc _ => ⟨.failedInternal, env, [.internalErr], 1, [current]⟩
      | .runtimeErr msg =>
        if MAX_RECOVERY_ATTEMPTS ≤ attempt then
          ⟨.failedMaxAttempts, env, [.allFailed], 1, [current]⟩
        else if isEmptyResponseRecovery msg then
          afterAttempt current []
            (handleLoop env original (recoveryContentA original) (attempt + 1) picks rest)
        else if isBadKeyRecovery msg then
          if env.useGemini && !env.geminiKeys.isEmpty then
            if env.geminiKeys.length ≤ 1 then
              ⟨.failedUnhandled, env, [.keyErrSingle, .unhandledErr], 1, [current]⟩
            else
              let other := env.geminiKeys.filter (fun k => k ≠ env.currentApiKey)
              if other.isEmpty then
                ⟨.failedUnhandled, env, [.keyErrNoOthers, .unhandledErr], 1, [current]⟩
              else
                let newKey := other.getD (picks.headD 0 % other.length) ""
                afterAttempt current []
                  (handleLoop ⟨env.useGemini, env.geminiKeys, newKey, env.maxTotalTokens⟩
                    original (recoveryContentB original) (attempt + 1) picks.tail rest)
          else
            ⟨.failedUnhandled, env, [.keyErrUnavailable, .unhandledErr], 1, [current]⟩
        else if isTokenLimitError msg then
          if env.useGemini then
            ⟨.failedUnhandled, env, [.budgetModuleErr, .unhandledErr], 1, [current]⟩
          else
            ⟨.failedUnhandled, env, [.tooLargeNonGemini, .unhandledErr], 1, [current]⟩
        else
          ⟨.failedUnhandled, env, [.unhandledErr], 1, [current]⟩

/-! ### The per-channel busy gate (`on_message` lines 571-578,
`_handle_request` lines 413-415) -/

/-- Map `_channel_locks`, as channel id → is the lock currently held; absent
channels get a fresh, unheld lock (`setdefault`). -/
structure BotState where
  channelLocks : List (Nat × Bool)
  deriving DecidableEq, Repr

/-- Test `lock.locked()` for a channel. -/
def lockedFor (st : BotState) (ch : Nat) : Bool :=
  (st.channelLocks.lookup ch).getD false

/-- Record the lock state of a channel. -/
def setLocked (st : BotState) (ch : Nat) (b : Bool) : BotState :=
  ⟨(ch, b) :: st.channelLocks.filter (fun p => p.1 ≠ ch)⟩

/-- Reply of the normal-message path of `on_message`. -/
inductive OnMsgReply where
  | busy
  | started
  deriving DecidableEq, Repr

/-- Normal-message path of `on_message`: if the channel's lock is held, a
busy notice is sent and nothing is queued; otherwise a task is created
for the request, which acquires the lock when it runs. -/
def onMessageGate (st : BotState) (ch : Nat) : OnMsgReply × BotState :=
  if lockedFor st ch then (.busy, st)
  else (.started, setLocked st ch true)

/-! ## Theorems -/

/-- Helper: every run of the pruning `while` loop keeps the first
`pruneStart` messages, drops some count `k` of the messages that follow
them, and stops only once the estimate fits the budget or at most one
message remains beyond the kept prefix. Proved by induction on a length
bound. -/
theorem pruneLoop_take_drop (budget ps : Nat) :
    ∀ (n : Nat) (l : List Msg), l.length ≤ n →
      (∃ k, pruneLoop budget ps l = l.take ps ++ l.drop (ps + k)) ∧
      (estimateTokens (pruneLoop budget ps l) ≤ budget ∨
        (pruneLoop budget ps l).length ≤ ps + 1) := by
  intro n
  induction n with
  | zero =>
    intro l hl
    rw [pruneLoop, dif_neg (by omega)]
    exact ⟨⟨0, by rw [Nat.add_zero, List.take_append_drop]⟩, Or.inr (by omega)⟩
  | succ n ih =>
    intro l hl
    rw [pruneLoop]
    by_cases h : budget < estimateTokens l ∧ ps + 1 < l.length
    · rw [dif_pos h]
      have hlen : (l.eraseIdx ps).length ≤ n := by
        rw [List.length_eraseIdx]
        split <;> omega
      obtain ⟨⟨k, hk⟩, hres⟩ := ih (l.eraseIdx ps) hlen
      refine ⟨⟨k + 1, ?_⟩, hres⟩
      have he : l.eraseIdx ps = l.take ps ++ l.drop (ps + 1) :=
        List.eraseIdx_eq_take_drop_succ l ps
      have hlt : (l.take ps).length = ps := by
        rw [List.length_take]
        omega
      have htake : (l.eraseIdx ps).take ps = l.take ps := by
        rw [he, List.take_append_eq_append_take, hlt, Nat.sub_self, List.take_take]
        simp
      have hdrop : (l.eraseIdx ps).drop (ps + k) = l.drop (ps + (k + 1)) := by
        rw [he, List.drop_append_eq_append_drop, hlt,
          List.drop_eq_nil_of_le (by omega), List.nil_append, List.drop_drop]
        congr 1
        omega
      rw [hk, htake, hdrop]
    · rw [dif_neg h]
      exact ⟨⟨0, by rw [Nat.add_zero, List.take_append_drop]⟩, by omega⟩

/-- C2 (corrected): pruning protects only a system message sitting in the
leading position. In `[user, system, user]` the start index is computed
as 0 once, so the second pop removes the system message itself — the
claim's "drops the oldest non-system message" fails on this history. -/
theorem prune_drops_midlist_system_cex :
    pruneMessages MAX_TOTAL_TOKENS
        [⟨"user", 2000000⟩, ⟨"system", 2000000⟩, ⟨"user", 2000000⟩]
      = [⟨"user", 2000000⟩] ∧
    (⟨"system", 2000000⟩ : Msg)
        ∈ [(⟨"user", 2000000⟩ : Msg), ⟨"system", 2000000⟩, ⟨"user", 2000000⟩] ∧
    (⟨"system", 2000000⟩ : Msg)
        ∉ pruneMessages MAX_TOTAL_TOKENS
            [⟨"user", 2000000⟩, ⟨"system", 2000000⟩, ⟨"user", 2000000⟩] := by
  have h : pruneMessages MAX_TOTAL_TOKENS
      [⟨"user", 2000000⟩, ⟨"system", 2000000⟩, ⟨"user", 2000000⟩]
      = [⟨"user", 2000000⟩] := by
    simp [pruneMessages, pruneStartIdx, pruneLoop, estimateTokens, MAX_TOTAL_TOKENS]
  refine ⟨h, by decide, ?_⟩
  rw [h]
  decide

/-- C2 (amended): before dispatch, a history whose estimate is at or
under the budget is left unchanged; otherwise the loop repeatedly drops
the oldest message after the protected prefix (the first message when its
role is `system`, nothing otherwise) until the estimate is at or under
budget or only one message remains beyond that prefix. -/
theorem prune_trims_to_budget (budget : Nat) (messages : List Msg) :
    (estimateTokens messages ≤ budget → pruneMessages budget messages = messages) ∧
    (∃ k, pruneMessages budget messages
        = messages.take (pruneStartIdx messages)
          ++ messages.drop (pruneStartIdx messages + k)) ∧
    (estimateTokens (pruneMessages budget messages) ≤ budget ∨
      (pruneMessages budget messages).length ≤ pruneStartIdx messages + 1) := by
  match messages with
  | [] =>
    refine ⟨fun _ => rfl, ⟨0, by simp [pruneMessages]⟩, Or.inr ?_⟩
    simp [pruneMessages, pruneStartIdx]
  | m0 :: tl =>
    have h := pruneLoop_take_drop budget (pruneStartIdx (m0 :: tl))
      (m0 :: tl).length (m0 :: tl) le_rfl
    refine ⟨?_, h.1, h.2⟩
    intro hle
    show pruneLoop budget (pruneStartIdx (m0 :: tl)) (m0 :: tl) = m0 :: tl
    rw [pruneLoop, dif_neg (by omega)]

/-- Closed instance of `prune_trims_to_budget`: a small under-budget
history is untouched, and its trimming trace is trivial. -/
theorem prune_trims_to_budget_witness :
    estimateTokens [(⟨"user", 5⟩ : Msg)] ≤ 950000 ∧
    pruneMessages 950000 [(⟨"user", 5⟩ : Msg)] = [⟨"user", 5⟩] :=
  ⟨by decide, (prune_trims_to_budget 950000 [⟨"user", 5⟩]).1 (by decide)⟩

/-- C4: at the top of every retry iteration, once the elapsed wall clock
exceeds `MAX_TOTAL_SECONDS` (default 8 h), `create` raises a
`RuntimeError` to the caller and makes no further dispatch, whatever
failures came before (the state `s` is arbitrary). -/
theorem create_timeout_aborts (pool : List String) (s : CreateState)
    (step : StepInput) (rest : List StepInput)
    (h : MAX_TOTAL_SECONDS < step.elapsed) :
    MAX_TOTAL_SECONDS = 8 * 60 * 60 ∧
    createLoop pool s (step :: rest) = ⟨.timeoutRaised, 0, [], [], s.keyIdx⟩ := by
  exact ⟨rfl, by simp [createLoop, h]⟩

/-- Closed instance of `create_timeout_aborts`. -/
theorem create_timeout_aborts_witness :
    MAX_TOTAL_SECONDS < (30000 : ℚ) ∧
    createLoop ["k"] initState [⟨30000, .success 3, 1⟩]
      = ⟨.timeoutRaised, 0, [], [], 0⟩ :=
  ⟨by decide,
    (create_timeout_aborts ["k"] initState ⟨30000, .success 3, 1⟩ [] (by decide)).2⟩

/-- C10: an `IndexError` whose text mentions "list index out of range"
makes `create` raise `EmptyApiResponseError` at once: one dispatch, no
sleep, no rotation, and the rest of the script is never consumed. -/
theorem create_empty_response_raises (pool : List String) (s : CreateState)
    (e j : ℚ) (msg : String) (rest : List StepInput)
    (h1 : ¬ MAX_TOTAL_SECONDS < e)
    (h2 : strContains msg "list index out of range" = true) :
    createLoop pool s (⟨e, .indexErr msg, j⟩ :: rest)
      = ⟨.emptyApiResponseError, 1, [], [], s.keyIdx⟩ := by
  simp [createLoop, h1, h2]

/-- Closed instance of `create_empty_response_raises`: even with a later
success available, the first empty-response failure raises. -/
theorem create_empty_response_raises_witness :
    strContains "IndexError: list index out of range" "list index out of range" = true ∧
    createLoop ["k"] initState
        [⟨0, .indexErr "IndexError: list index out of range", 1⟩, ⟨1, .success 2, 1⟩]
      = ⟨.emptyApiResponseError, 1, [], [], 0⟩ :=
  ⟨by decide,
    create_empty_response_raises ["k"] initState 0 1
      "IndexError: list index out of range" [⟨1, .success 2, 1⟩] (by decide) (by decide)⟩

/-- C3: a failure whose text carries a 429 or 5xx signature is retried
(the loop dispatches again and returns the follow-up success), while a
failure matching none of the retriable signatures is re-raised to the
caller immediately after its single dispatch. -/
theorem create_error_classification (pool : List String) (s : CreateState)
    (msg : String) (e1 j1 e2 j2 : ℚ) (v : Nat) (rest : List StepInput)
    (h1 : ¬ MAX_TOTAL_SECONDS < e1) (h2 : ¬ MAX_TOTAL_SECONDS < e2) :
    ((strContains msg "429" = true ∨ strContains msg "500" = true ∨
      strContains msg "502" = true ∨ strContains msg "503" = true ∨
      strContains msg "504" = true) →
      (createLoop pool s
          (⟨e1, .excErr msg, j1⟩ :: ⟨e2, .success v, j2⟩ :: rest)).result
        = .returned v ∧
      (createLoop pool s
          (⟨e1, .excErr msg, j1⟩ :: ⟨e2, .success v, j2⟩ :: rest)).dispatches = 2) ∧
    (isHttpRetriable msg = false →
      createLoop pool s (⟨e1, .excErr msg, j1⟩ :: rest)
        = ⟨.raisedError msg, 1, [], [], s.keyIdx⟩) := by
  constructor
  · intro h
    have hr : isHttpRetriable msg = true := by
      rcases h with h | h | h | h | h <;> simp [isHttpRetriable, h]
    constructor <;> simp [createLoop, h1, h2, hr]
  · intro hr
    simp [createLoop, h1, hr]

/-- Closed instance of `create_error_classification`: a 429 is retried
and the follow-up success is returned; a non-matching error is raised
with exactly one dispatch. -/
theorem create_error_classification_witness :
    (createLoop ["k"] initState
        [⟨0, .excErr "429 Resource has been exhausted", 1⟩, ⟨1, .success 7, 1⟩]).result
      = .returned 7 ∧
    createLoop ["k"] initState [⟨0, .excErr "ValueError: bad payload", 1⟩]
      = ⟨.raisedError "ValueError: bad payload", 1, [], [], 0⟩ :=
  ⟨((create_error_classification ["k"] initState "429 Resource has been exhausted"
      0 1 1 1 7 [] (by decide) (by decide)).1 (Or.inl (by decide))).1,
    (create_error_classification ["k"] initState "ValueError: bad payload"
      0 1 1 1 7 [] (by decide) (by decide)).2 (by decide)⟩

/-- C1 (counterexample): credential pool `[keyA, keyB]`, and the dispatch
fails with Google's invalid-credential text. `create` re-raises the error
after its single dispatch — no rotation (`keySwitches = []`, the cursor
stays at `keyA`) and no retry, where the claim requires rotating to
`keyB` and retrying. -/
theorem invalid_credential_propagates_cex :
    createLoop ["keyA", "keyB"] initState
        [⟨0, .excErr "400 API key not valid. Please pass a valid API key.", 1⟩,
          ⟨1, .success 7, 1⟩]
      = ⟨.raisedError "400 API key not valid. Please pass a valid API key.",
          1, [], [], 0⟩ := by
  decide

/-- C1 (amended): a dispatch failure carrying an invalid-credential
signature matches none of `create`'s retriable signatures, so `create`
propagates it to the caller immediately: one dispatch, no retry, and no
credential rotation (rotation inside `create` happens only after
`KEY_ROTATE_EVERY` consecutive retriable failures; invalid-credential
recovery lives one level up, in the bot's `_handle_request`). -/
theorem invalid_credential_propagates (pool : List String) (s : CreateState)
    (e j : ℚ) (msg : String) (rest : List StepInput)
    (h1 : ¬ MAX_TOTAL_SECONDS < e)
    (_hinv : strContains msg "API key not valid" = true)
    (hr : isHttpRetriable msg = false) :
    createLoop pool s (⟨e, .excErr msg, j⟩ :: rest)
      = ⟨.raisedError msg, 1, [], [], s.keyIdx⟩ := by
  simp [createLoop, h1, hr]

/-- Closed instance of `invalid_credential_propagates`, from an arbitrary
mid-run state with two keys available. -/
theorem invalid_credential_propagates_witness :
    createLoop ["keyA", "keyB"] ⟨2, 4, 2, 1⟩
        [⟨5, .excErr "403 API key not valid", 1⟩]
      = ⟨.raisedError "403 API key not valid", 1, [], [], 1⟩ :=
  invalid_credential_propagates ["keyA", "keyB"] ⟨2, 4, 2, 1⟩ 5 1
    "403 API key not valid" [] (by decide) (by decide) (by decide)

/-- C5: the delay before the next attempt is the server-specified delay
when the error payload carries one; otherwise it is the capped
exponential backoff (which the update doubles, re-capping) times the
jitter sample, and that fallback delay never exceeds
`MAX_BACKOFF * 1.3`. -/
theorem create_backoff_delay (backoff jitter : ℚ) (msg : String) (d : Nat)
    (hj1 : 1 ≤ jitter) (hj2 : jitter ≤ 13 / 10) :
    (extractRetryDelay msg = some d →
      (computeDelay backoff jitter msg).1 = (d : ℚ)) ∧
    (extractRetryDelay msg = none →
      (computeDelay backoff jitter msg).1 = min backoff MAX_BACKOFF * jitter ∧
      (computeDelay backoff jitter msg).2 = min (backoff * 2) MAX_BACKOFF ∧
      (computeDelay backoff jitter msg).1 ≤ MAX_BACKOFF * (13 / 10)) := by
  constructor
  · intro h
    simp [computeDelay, h]
  · intro h
    refine ⟨by simp [computeDelay, h], by simp [computeDelay, h], ?_⟩
    simp only [computeDelay, h]
    calc min backoff MAX_BACKOFF * jitter
        ≤ MAX_BACKOFF * jitter :=
          mul_le_mul_of_nonneg_right (min_le_right _ _) (by linarith)
      _ ≤ MAX_BACKOFF * (13 / 10) :=
          mul_le_mul_of_nonneg_left hj2 (by norm_num [MAX_BACKOFF])

/-- Closed instance of `create_backoff_delay`: a payload carrying
`retry_delay ... seconds: 30` is honoured verbatim, and a bare 429 falls
back to the jittered backoff. -/
theorem create_backoff_delay_witness :
    (computeDelay 1 1 "429 quota exceeded retry_delay \x7b seconds: 30 \x7d").1 = 30 ∧
    (computeDelay 1 1 "429 Too Many Requests").1 = 1 := by
  have ha := create_backoff_delay 1 1
    "429 quota exceeded retry_delay \x7b seconds: 30 \x7d" 30 (by norm_num) (by norm_num)
  have hb := create_backoff_delay 1 1 "429 Too Many Requests" 30 (by norm_num) (by norm_num)
  refine ⟨by simpa using ha.1 (by decide), ?_⟩
  have hb1 := (hb.2 (by decide)).1
  rw [hb1]
  decide

/-- C9: rotation keeps the cursor inside the configured pool, and with
more than one (distinct) credential configured, the key designated right
after a rotation differs from the key that was failing. -/
theorem rotation_pool_invariant (pool : List String) (i : Nat)
    (hi : i < pool.length) (hd : pool.Nodup) :
    rotateKey pool.length i < pool.length ∧
    (1 < pool.length →
      pool.get ⟨rotateKey pool.length i, Nat.mod_lt _ (by omega)⟩
        ≠ pool.get ⟨i, hi⟩) := by
  refine ⟨Nat.mod_lt _ (by omega), fun h2 hcontra => ?_⟩
  have hval : rotateKey pool.length i = i :=
    Fin.val_eq_of_eq ((List.Nodup.get_inj_iff hd).1 hcontra)
  rw [rotateKey] at hval
  rcases Nat.lt_or_ge (i + 1) pool.length with hlt | hge
  · rw [Nat.mod_eq_of_lt hlt] at hval
    omega
  · have hn : i + 1 = pool.length := by omega
    rw [hn, Nat.mod_self] at hval
    omega

/-- Closed instance of `rotation_pool_invariant` on the pool
`[keyA, keyB]` with the cursor on `keyA`. -/
theorem rotation_pool_invariant_witness :
    rotateKey 2 0 < 2 ∧ ("keyA" :: ["keyB"]).get ⟨rotateKey 2 0, by decide⟩ ≠ "keyA" := by
  have h := rotation_pool_invariant ["keyA", "keyB"] 0 (by decide) (by decide)
  exact ⟨h.1, h.2 (by decide)⟩

/-- C8 (evaluation at the failing scenario): the retry loop of `create`
has no cancellation input at all — its only exits are a returned
response, a raised error, or the wall-clock cut-off. On a script of
retriable failures it dispatches every time and is still running when
the script ends, so a task cancelled between backoff sleeps does not
stop it. -/
theorem create_loop_has_no_cancellation_exit :
    (createLoop ["k"] initState
        [⟨0, .excErr "429 x", 1⟩, ⟨10, .excErr "429 x", 1⟩,
          ⟨20, .excErr "429 x", 1⟩]).dispatches = 3 ∧
    (createLoop ["k"] initState
        [⟨0, .excErr "429 x", 1⟩, ⟨10, .excErr "429 x", 1⟩,
          ⟨20, .excErr "429 x", 1⟩]).result = .scriptEnded := by
  decide

/-- C6: while a task is running for a channel its lock is held, so a
second message for that channel is answered with the busy notice at once
and the whole bot state — every channel's lock and the running task —
is left exactly as it was: nothing is queued. -/
theorem gate_busy_when_locked (st : BotState) (ch : Nat)
    (h : lockedFor st ch = true) :
    onMessageGate st ch = (.busy, st) := by
  simp [onMessageGate, h]

/-- Closed instance of `gate_busy_when_locked`: channel 7 is busy,
channel 9's state is untouched. -/
theorem gate_busy_when_locked_witness :
    onMessageGate ⟨[(7, true), (9, false)]⟩ 7 = (.busy, ⟨[(7, true), (9, false)]⟩) :=
  gate_busy_when_locked ⟨[(7, true), (9, false)]⟩ 7 (by decide)

/-- C7 (code_bug, evaluated at the failing input): with Gemini in use
and budget 950000, a context-too-large failure on the first attempt,
with a success available on the next. The tightening block reads the
never-bound name `_grw` (line 514; its import is commented out at line
81), so it raises `NameError`, caught at line 519: the handler sends the
internal budget-adjust notice, takes the unhandled exit, and returns —
one chat call, budget untouched, no retry — where the claim, the spec,
and the code's own comment at line 513 intend tighten-and-retry. -/
theorem token_limit_recovery_dead_code :
    handleLoop ⟨true, ["k1", "k2"], "k1", 950000⟩ "orig" "orig" 1 []
        [.runtimeErr "400 input token count (1200000) exceeds the maximum number of tokens allowed (1000000)",
          .ok]
      = ⟨.failedUnhandled, ⟨true, ["k1", "k2"], "k1", 950000⟩,
          [.budgetModuleErr, .unhandledErr], 1, ["orig"]⟩ := by
  decide

end WebfgAgent
